import Mathlib

/-!
# Verification of the PyDDA multigrid retrieval core

This file gives a shallow embedding of `pydda/retrieval/multigrid.py` and proves
properties of that embedding.  Floating-point values are modelled as `Option ℚ`,
with `none` standing for a non-finite value (NaN/inf) or a masked entry of a
numpy masked array; IEEE arithmetic on NaN propagates, which the strict `Option`
arithmetic below reproduces.  External collaborators (the physical cost function
`cost_functions.J_function` and its gradient `cost_functions.grad_J`, and the
bound-constrained solver `scipy.optimize.fmin_l_bfgs_b`) are taken as function
parameters, as the specification treats them as opaque.
-/

namespace PyDDA

/-- A float value: `none` models NaN/inf (a non-finite value) or a masked entry. -/
abbrev F := Option ℚ

/-- Strict addition: any non-finite operand poisons the result, as NaN does. -/
def addF : F → F → F
  | some a, some b => some (a + b)
  | _, _ => none

/-- Strict subtraction. -/
def subF : F → F → F
  | some a, some b => some (a - b)
  | _, _ => none

/-- Strict multiplication. -/
def mulF : F → F → F
  | some a, some b => some (a * b)
  | _, _ => none

/-- In-place addition of a NaN-masked addend into the plain `winds` array
(`winds[0] += np.ma.masked_where(np.isnan(u_add), u_add)`, multigrid.py:475-477):
`winds` is a plain ndarray, and `ndarray.__iadd__` never defers to the masked
right-hand operand (`MaskedArray` defines no `__array_ufunc__`), so the ufunc
adds the masked array's raw buffer — the NaN itself under the mask — and a NaN
addend poisons the target entry. -/
def inplaceAddRaw (w add : F) : F := addF w add

/-! ## Trilinear interpolation

`scipy.interpolate.RegularGridInterpolator((zf, yf, xf), values,
bounds_error=False, fill_value=None)` with the default `method="linear"`:
every query is answered from the grid cell found by `searchsorted` (clipped to
the boundary cells), so queries outside the coordinate bounds are *linearly
extrapolated* from the nearest edge cell — `fill_value=None` disables the NaN
fill.  All interpolator constructions in multigrid.py pass exactly these
arguments. -/

/-- Coordinate of grid node `i` (`xs[i]`; out-of-range reads do not occur on the
index ranges used). -/
def gridAt (xs : List ℚ) (i : ℕ) : ℚ := xs.getD i 0

/-- The cell index chosen by scipy's `_find_indices`:
`np.searchsorted(grid, x) - 1` clipped into `[0, grid.size - 2]`.
`searchsorted` with `side='left'` counts the entries strictly below `x`;
the clipping is what makes out-of-bounds queries use the edge cell. -/
def cellIdx (xs : List ℚ) (q : ℚ) : ℕ :=
  min (xs.countP (fun t => t < q) - 1) (xs.length - 2)

/-- Normalised distance of the query from the lower node of its cell; it lies
outside `[0, 1]` exactly for out-of-bounds queries, which is how
`fill_value=None` extrapolates. -/
def normDist (xs : List ℚ) (q : ℚ) : ℚ :=
  (q - gridAt xs (cellIdx xs q)) / (gridAt xs (cellIdx xs q + 1) - gridAt xs (cellIdx xs q))

/-- A 3-D gridded field of float values, indexed `(z, y, x)`. -/
abbrev Field := ℕ → ℕ → ℕ → F

/-- Trilinear interpolation of `v` (values at the nodes of the grid
`zs × ys × xs`) at the query point `(pz, py, px)`.  All 8 corner values of the
selected cell enter the weighted sum, so a NaN at any corner poisons the
result (as `0 * nan = nan` does in scipy's `_evaluate_linear`). -/
def interp3 (zs ys xs : List ℚ) (v : Field) (pz py px : ℚ) : F :=
  let iz := cellIdx zs pz
  let iy := cellIdx ys py
  let ix := cellIdx xs px
  let dz := normDist zs pz
  let dy := normDist ys py
  let dx := normDist xs px
  match v iz iy ix, v iz iy (ix+1), v iz (iy+1) ix, v iz (iy+1) (ix+1),
        v (iz+1) iy ix, v (iz+1) iy (ix+1), v (iz+1) (iy+1) ix, v (iz+1) (iy+1) (ix+1) with
  | some v000, some v001, some v010, some v011,
    some v100, some v101, some v110, some v111 =>
      some (v000 * (1-dz) * (1-dy) * (1-dx) + v001 * (1-dz) * (1-dy) * dx +
            v010 * (1-dz) * dy * (1-dx) + v011 * (1-dz) * dy * dx +
            v100 * dz * (1-dy) * (1-dx) + v101 * dz * (1-dy) * dx +
            v110 * dz * dy * (1-dx) + v111 * dz * dy * dx)
  | _, _, _, _, _, _, _, _ => none

/-- Coarse coordinate axis: pairwise midpoints of adjacent fine coordinates
(`zc = (zf[:-1:2] + zf[1::2]) / 2.0`, multigrid.py:157-162; a trailing
unpaired fine coordinate is dropped). -/
def coarsen : List ℚ → List ℚ
  | a :: b :: rest => (a + b) / 2 :: coarsen rest
  | _ => []

/-- Restriction: sample a fine-grid field at the coarse meshgrid nodes
(multigrid.py:389-400 for the wind components). -/
def restrictField (zf yf xf : List ℚ) (v : Field) : Field :=
  fun a b c =>
    interp3 zf yf xf v (gridAt (coarsen zf) a) (gridAt (coarsen yf) b) (gridAt (coarsen xf) c)

/-- Prolongation: sample a coarse-grid field at the fine meshgrid nodes
(multigrid.py:461-473). -/
def prolongField (zc yc xc : List ℚ) (v : Field) (zf yf xf : List ℚ) : Field :=
  fun a b c => interp3 zc yc xc v (gridAt zf a) (gridAt yf b) (gridAt xf c)

/-- Model of `np.ma.masked_where(np.isnan(cond), src)`: masked where the
condition field is NaN, keeping `src`'s own mask (multigrid.py:414-416 applies
this with `src` the coarse *winds*, not the coarse gradient). -/
def remaskBy (cond src : Field) : Field :=
  fun i j k => match cond i j k with
    | none => none
    | some _ => src i j k

/-! ## The multigrid cycle body (multigrid.py:364-478)

The wind state is the triple of `u`, `v`, `w` 3-D fields; the source keeps it
as one flattened vector and reshapes to `(3, nz, ny, nx)` at will — a bijective
re-indexing which the embedding elides by indexing components with `Fin 3`.
The external gradient `cost_functions.grad_J` (evaluated with the fine-grid
observations, weights and cost parameters, all fixed within a call) is the
parameter `gradJ`; the external bound-constrained solver `fmin_l_bfgs_b`
(receiving the coarse winds as start point and the coarse residual through its
argument tuple) is the parameter `solve`, standing for the returned minimiser
`w[0]`. -/

/-- The wind state: three 3-D component fields. -/
abbrev W := Fin 3 → Field

/-- Pointwise subtraction of wind states. -/
def subW (a b : W) : W := fun comp i j k => subF (a comp i j k) (b comp i j k)

/-- The initial value of `fine_gradient` (`np.inf`, multigrid.py:363): a
non-finite value, never consumed because the relaxation loop runs 5 ≥ 1 times. -/
def infW : W := fun _ _ _ _ => none

/-- One iteration of the relaxation loop (multigrid.py:371-378): evaluate the
gradient at the current iterate and take one descent step with `step_size = 1`.
The pair carries `(winds_new, fine_gradient)`. -/
def relaxIter (gradJ : W → W) (p : W × W) : W × W :=
  (subW p.1 (gradJ p.1), gradJ p.1)

/-- `n` iterations of the relaxation loop. -/
def relaxN (gradJ : W → W) : ℕ → (W × W) → (W × W)
  | 0, p => p
  | n + 1, p => relaxN gradJ n (relaxIter gradJ p)

/-- The relaxation stage: exactly 5 iterations (`for i in range(5)`). -/
def relaxResult (gradJ : W → W) (winds : W) : W × W :=
  relaxN gradJ 5 (winds, infW)

/-- The post-relaxation wind field `winds_new`. -/
def relaxedWinds (gradJ : W → W) (winds : W) : W := (relaxResult gradJ winds).1

/-- The fine residual: the final `fine_gradient` of the relaxation loop
(`residual = fine_gradient`, multigrid.py:387). -/
def fineResidual (gradJ : W → W) (winds : W) : W := (relaxResult gradJ winds).2

/-- Restrict every component of a wind state to the coarse grid. -/
def restrictW (zf yf xf : List ℚ) (w : W) : W :=
  fun comp => restrictField zf yf xf (w comp)

/-- `winds_coarse`: the restricted post-relaxation winds (multigrid.py:398-404,
flattened through `np.stack` at line 418).  The remask at 402-404 records the
NaN positions of the interpolated data in the mask, and `np.stack` returns a
plain array that drops that mask — but the underlying data already holds NaN
exactly there, so the flattened start point is the raw interpolation result,
which the `Option` model carries directly. -/
def coarseInput (zf yf xf : List ℚ) (gradJ : W → W) (winds : W) : W :=
  restrictW zf yf xf (relaxedWinds gradJ winds)

/-- The masked arrays `u_gcoarse`/`v_gcoarse`/`w_gcoarse` (multigrid.py:405-416)
as data/mask pairs: the fine residual is interpolated to the coarse grid
(405-413), but the remask step `np.ma.masked_where(np.isnan(u_gcoarse),
u_coarse)` builds its result from the coarse *winds*: its data buffer is
`u_coarse`'s data, and the interpolated gradient's NaN positions (together with
`u_coarse`'s own mask) survive only in the mask bit. -/
def coarseResidualMasked (zf yf xf : List ℚ) (gradJ : W → W) (winds : W) :
    (Fin 3 → Field) × (Fin 3 → ℕ → ℕ → ℕ → Bool) :=
  (fun comp => coarseInput zf yf xf gradJ winds comp,
   fun comp i j k =>
     (restrictField zf yf xf (fineResidual gradJ winds comp) i j k).isNone
       || (coarseInput zf yf xf gradJ winds comp i j k).isNone)

/-- `np.stack` on masked arrays (multigrid.py:419) returns a plain ndarray:
the mask is dropped and only the raw data buffer remains. -/
def stackDropMask (p : (Fin 3 → Field) × (Fin 3 → ℕ → ℕ → ℕ → Bool)) : W := p.1

/-- The flattened `residual` argument handed to the coarse solver
(multigrid.py:419): the stacked data of the remasked arrays, which — the mask
having been dropped — is exactly the coarse wind data; the restricted gradient
reaches the solver in no other way. -/
def coarseResidual (zf yf xf : List ℚ) (gradJ : W → W) (winds : W) : W :=
  stackDropMask (coarseResidualMasked zf yf xf gradJ winds)

/-- The prolonged coarse correction: the solver output minus the coarse input
winds, interpolated back onto the fine grid (multigrid.py:459-473). -/
def prolongedCorrection (zf yf xf : List ℚ) (gradJ : W → W) (solve : W → W → W)
    (winds : W) : W :=
  let wc := coarseInput zf yf xf gradJ winds
  let sol := solve wc (coarseResidual zf yf xf gradJ winds)
  fun comp =>
    prolongField (coarsen zf) (coarsen yf) (coarsen xf)
      (fun i j k => subF (sol comp i j k) (wc comp i j k)) zf yf xf

/-- One full multigrid cycle (the body of the `while` loop, multigrid.py:364-478).
The correction is added in place to `winds` — the *pre-relaxation* field
reshaped at line 367 — not to `winds_new`; the relaxation update reaches the
next cycle only through the coarse solve.  The in-place `+=` adds the masked
addend's raw buffer, so a NaN correction entry poisons the wind entry. -/
def mgCycle (zf yf xf : List ℚ) (gradJ : W → W) (solve : W → W → W) (winds : W) : W :=
  fun comp i j k =>
    inplaceAddRaw (winds comp i j k)
      (prolongedCorrection zf yf xf gradJ solve winds comp i j k)

/-- Modelled from the claim's words: the cycle result as the *post-relaxation*
(relaxed) wind field plus the prolonged coarse correction, added in place with
the same `+=` semantics.  Stated separately so it can be compared with
`mgCycle`, the embedding of the code. -/
def claimedCycleResult (zf yf xf : List ℚ) (gradJ : W → W) (solve : W → W → W)
    (winds : W) : W :=
  fun comp i j k =>
    inplaceAddRaw (relaxedWinds gradJ winds comp i j k)
      (prolongedCorrection zf yf xf gradJ solve winds comp i j k)

/-- One steepest-descent step with unit step size, as the spec words it. -/
def descentStep (gradJ : W → W) : W → W := fun w => subW w (gradJ w)

/-! ## The coarse cost/gradient adapters (`_J_coarse`, `_grad_coarse`,
multigrid.py:13-43)

`cost_functions.J_function` returns a scalar (per the spec's interface
contract, a finite value), modelled as `J : List F → ℚ` over the flattened
winds; `cost_functions.grad_J` returns an array of the winds' shape, modelled
as `List F → List F`. -/

/-- `finites = np.logical_and(np.isfinite(winds), np.isfinite(residual))`
(multigrid.py:22). -/
def finitesMask (w r : List F) : List Bool :=
  List.zipWith (fun a b => a.isSome && b.isSome) w r

/-- Boolean fancy-indexing `residual[finites]`: the values at the `true`
positions (all finite there by construction of the mask). -/
def maskSelect (r : List F) (m : List Bool) : List ℚ :=
  (r.zip m).filterMap (fun p => if p.2 then p.1 else none)

/-- The squared Euclidean norm inside `_J_coarse`:
`cost - 0.001*residual[finites]` broadcasts the scalar cost over the selected
residual entries, and `np.linalg.norm` is the root of this sum of squares. -/
def J_coarseSq (J : List F → ℚ) (winds residual : List F) : ℚ :=
  ((maskSelect residual (finitesMask winds residual)).map
    (fun ri => (J winds - (1/1000) * ri) ^ 2)).sum

/-- `_J_coarse` (multigrid.py:13-26): the Euclidean norm of the broadcast
difference between the external cost and `0.001*residual[finites]`. -/
noncomputable def J_coarse (J : List F → ℚ) (winds residual : List F) : ℝ :=
  Real.sqrt ((J_coarseSq J winds residual : ℚ) : ℝ)

/-- `_grad_coarse` (multigrid.py:29-43): `grad_J(winds) - 0.001*residual`,
elementwise, with no finiteness restriction (the `finites` mask there feeds
only the optional printout). -/
def grad_coarse (gradJ : List F → List F) (winds residual : List F) : List F :=
  List.zipWith (fun g r => subF g (mulF (some (1/1000)) r)) (gradJ winds) residual

/-! ## Weight building (multigrid.py:126-262)

Cells of one horizontal level are indexed by an abstract type `ι` (the source's
`(y, x)` pairs); levels and radars by `ℕ`.  `mask r k c` is
`vrs[r][k].mask[c]` (`true` = observation invalid), `bca i j c` the
beam-crossing-angle field of the radar pair `(i, j)` and `minr`/`maxr` the BCA
bounds already converted to radians (`math.radians(min_bca)` etc. — the π/180
rescale applied to both sides of every comparison). -/

/-- The mutable pair of weight arrays built by the pass:
`weights[radar][level][cell]` and `bg_weights[level][cell]`. -/
structure WeightSt (ι : Type) where
  obs : ℕ → ℕ → ι → ℚ
  bg : ℕ → ι → ℚ

/-- The body of the innermost loop over vertical levels `k` for the radar pair
`(i, j)` (multigrid.py:211-242).  With `weights_obs` absent, both radars' rows
at level `k` gain 1 where the observation is valid and the BCA lies within
`[minr, maxr]`.  With `weights_bg` absent, the level-`k` background row is set
to 1 where `bca >= minr` *or* `bca <= maxr` and then to 0 where radar `i`'s
observation is masked, and the result is also copied into row `i` of
`bg_weights` (`bg_weights[i] = cur_array` — the radar index used as a level
index).  Supplied `weights_obs`/`weights_bg` are copied verbatim. -/
def levelStep (ι : Type) (mask : ℕ → ℕ → ι → Bool) (bca : ℕ → ℕ → ι → ℚ)
    (minr maxr : ℚ) (wObs : Option (ℕ → ℕ → ι → ℚ)) (wBg : Option (ℕ → ι → ℚ))
    (i j : ℕ) (s : WeightSt ι) (k : ℕ) : WeightSt ι :=
  let obs1 : ℕ → ℕ → ι → ℚ :=
    match wObs with
    | none => fun r l c =>
        if l = k ∧ (r = i ∨ r = j) ∧ mask r k c = false ∧
            minr ≤ bca i j c ∧ bca i j c ≤ maxr
        then s.obs r l c + 1 else s.obs r l c
    | some wo => fun r l c => if l = k ∧ (r = i ∨ r = j) then wo r k c else s.obs r l c
  let bg1 : ℕ → ι → ℚ :=
    match wBg with
    | none =>
        let newRow : ι → ℚ := fun c =>
          if mask i k c then 0
          else if minr ≤ bca i j c ∨ bca i j c ≤ maxr then 1
          else s.bg k c
        fun l c => if l = k ∨ l = i then newRow c else s.bg l c
    | some wb => fun l c => if l = i then wb i c else s.bg l c
  ⟨obs1, bg1⟩

/-- The loop over the `nLev` vertical levels for one radar pair. -/
def pairStep (ι : Type) (nLev : ℕ) (mask : ℕ → ℕ → ι → Bool)
    (bca : ℕ → ℕ → ι → ℚ) (minr maxr : ℚ) (wObs : Option (ℕ → ℕ → ι → ℚ))
    (wBg : Option (ℕ → ι → ℚ)) (s : WeightSt ι) (p : ℕ × ℕ) : WeightSt ι :=
  (List.range nLev).foldl (levelStep ι mask bca minr maxr wObs wBg p.1 p.2) s

/-- The ordered radar pairs `(i, j)` with `i < j`, outer index ascending
(`for i in range(len(Grids)): for j in range(i + 1, len(Grids))`). -/
def pairList (n : ℕ) : List (ℕ × ℕ) :=
  (List.range n).flatMap (fun i =>
    ((List.range n).filter (fun j => i < j)).map (fun j => (i, j)))

/-- The whole weight-building pass (multigrid.py:126-262): zero-initialised
arrays, the pair/level loops when more than one radar is supplied, the
single-radar fallback `weights[0] = np.where(~vrs[0].mask, 1, 0)`,
`bg_weights = np.where(~vrs[0].mask, 0, 1)` otherwise, and the final clip
`weights[weights > 0] = 1`. -/
def weightsPass (ι : Type) (nRad nLev : ℕ) (mask : ℕ → ℕ → ι → Bool)
    (bca : ℕ → ℕ → ι → ℚ) (minr maxr : ℚ) (wObs : Option (ℕ → ℕ → ι → ℚ))
    (wBg : Option (ℕ → ι → ℚ)) : WeightSt ι :=
  let s :=
    if nRad > 1 then
      (pairList nRad).foldl (pairStep ι nLev mask bca minr maxr wObs wBg)
        ⟨fun _ _ _ => 0, fun _ _ => 0⟩
    else
      ⟨fun r l c => if r = 0 ∧ mask 0 l c = false then 1 else 0,
       fun l c => if mask 0 l c then 1 else 0⟩
  ⟨fun r l c => if s.obs r l c > 0 then 1 else s.obs r l c, s.bg⟩

/-- The model-weight arrays after the weight-building pass
(multigrid.py:130-136 and 251-257): initialised to 1 when `model_fields` is
supplied (one array per model field) and to a single zero array otherwise; the
coverage-based fade `1 - coverage_grade/(len(Grids) + 1)` — or the verbatim
copy of caller-supplied `weights_model` — is applied only inside the
`len(Grids) > 1` branch.  `coverage_grade` (the normalised sum of the
observation weights, computed in that same branch) enters as a parameter. -/
def modWeightsPass (ι : Type) (nRad : ℕ) (nModel : Option ℕ)
    (wModel : Option (ℕ → ℕ → ι → ℚ)) (coverage : ℕ → ι → ℚ) : ℕ → ℕ → ι → ℚ :=
  let init : ℕ → ℕ → ι → ℚ :=
    match nModel with
    | some _ => fun _ _ _ => 1
    | none => fun _ _ _ => 0
  if nRad > 1 then
    match nModel with
    | some _ =>
        match wModel with
        | none => fun _ k c => 1 - coverage k c / (nRad + 1)
        | some wm => fun m k c => wm m k c
    | none => init
  else init

/-! ## Entry validation (multigrid.py:46-141)

The Python-level errors the setup code can raise, in execution order: the
vorticity check (lines 61-64), the list check (66-67), the per-axis grid
conformance chain (70-87), the sounding interpolation (`interp1d(z_back, ...)`
raises `TypeError` when `z_back` is `None` while `u_back`/`v_back` are given,
lines 96-98), the default field-name resolution (113-118) which references the
name `pyart` — never imported in the module (lines 1-11) — and therefore raises
`NameError`, and the model-fields check (138-141). -/

/-- The error classes distinguished by the setup code. -/
inductive PyErr where
  | valueError : String → PyErr
  | nameError : PyErr
  | typeError : PyErr
  | indexError : PyErr
deriving DecidableEq

/-- The slice of a py-ART grid object the conformance check reads. -/
structure PyGrid where
  x : List ℚ
  y : List ℚ
  z : List ℚ
  origin_latitude : ℚ
deriving DecidableEq

/-- `np.allclose(a, b, atol=10)` with numpy's default `rtol=1e-5`:
elementwise `|a - b| <= atol + rtol*|b|` (shape disagreement is not close). -/
def npAllclose (a b : List ℚ) : Bool :=
  a.length == b.length &&
    (a.zip b).all (fun p => decide (|p.1 - p.2| ≤ 10 + |p.2| / 100000))

/-- One iteration of the conformance loop (multigrid.py:72-85): compare a grid
with `prev_grid` axis by axis, then the origin latitude exactly. -/
def checkPair (g prev : PyGrid) : Except PyErr Unit :=
  if npAllclose g.x prev.x = false then
    .error (.valueError "Grids do not have equal x coordinates!")
  else if npAllclose g.y prev.y = false then
    .error (.valueError "Grids do not have equal y coordinates!")
  else if npAllclose g.z prev.z = false then
    .error (.valueError "Grids do not have equal z coordinates!")
  else if g.origin_latitude ≠ prev.origin_latitude then
    .error (.valueError "Grids have unequal origin lat/lons!")
  else .ok ()

/-- The conformance loop with the running `prev_grid`. -/
def checkGridsGo (prev : PyGrid) : List PyGrid → Except PyErr Unit
  | [] => .ok ()
  | g :: rest =>
    match checkPair g prev with
    | .ok _ => checkGridsGo g rest
    | .error e => .error e

/-- The conformance check (multigrid.py:69-87): `prev_grid = Grids[0]`
(an `IndexError` on an empty list), then the chain over all grids — the first
comparison is `Grids[0]` against itself. -/
def checkGrids : List PyGrid → Except PyErr Unit
  | [] => .error .indexError
  | g :: rest => checkGridsGo g (g :: rest)

/-- The spec-side conformance predicate for one consecutive pair. -/
def conformPair (g prev : PyGrid) : Prop :=
  npAllclose g.x prev.x = true ∧ npAllclose g.y prev.y = true ∧
    npAllclose g.z prev.z = true ∧ g.origin_latitude = prev.origin_latitude

/-- The arguments of `get_dd_wind_field_multigrid` that the setup validation
reads.  `grids_is_list` models `isinstance(Grids, list)`. -/
structure MgConfig where
  grids_is_list : Bool
  grids : List PyGrid
  Ut : Option ℚ
  Vt : Option ℚ
  Cv : ℚ
  Cmod : ℚ
  u_back : Option (List ℚ)
  v_back : Option (List ℚ)
  z_back : Option (List ℚ)
  refl_field : Option String
  vel_name : Option String
  model_fields : Option (List String)

/-- The setup code from entry to the model-fields check (multigrid.py:60-141),
as the sequence of possible raises in execution order; `.ok ()` means control
reaches the solver setup with no error. -/
def validateSetup (c : MgConfig) : Except PyErr Unit :=
  if (c.Ut = none ∨ c.Vt = none) ∧ c.Cv ≠ 0 then
    .error (.valueError "Ut and Vt cannot be None if vertical vorticity constraint is enabled!")
  else if c.grids_is_list = false then
    .error (.valueError "Grids has to be a list!")
  else
    match checkGrids c.grids with
    | .error e => .error e
    | .ok _ =>
      if c.u_back ≠ none ∧ c.v_back ≠ none ∧ c.z_back = none then .error .typeError
      else if c.refl_field = none then .error .nameError
      else if c.vel_name = none then .error .nameError
      else if c.model_fields = none ∧ c.Cmod ≠ 0 then
        .error (.valueError "Cmod must be zero if model fields are not specified!")
      else .ok ()

/-! ## The outer iteration loop (multigrid.py:322, 364, 457)

`iterations = 0`, `while (iterations < max_iterations):`,
`iterations = iterations + 50`.  The loop body never breaks; the coarse
solver's `warnflag` (line 434) is stored in the state but never consulted by
the guard, which `runCycles` makes literal by quantifying over the body. -/

/-- The number of passes of the `while` guard that succeed, starting from a
given counter value. -/
def loopCount (iters maxIter : ℕ) : ℕ :=
  if iters < maxIter then loopCount (iters + 50) maxIter + 1 else 0
termination_by maxIter - iters
decreasing_by omega

/-- The outer loop itself, over an arbitrary state type (the state bundles the
wind vector, `warnflag`, and the rest of the loop-carried variables). -/
def runCycles {σ : Type} (body : σ → σ) (iters maxIter : ℕ) (s : σ) : σ :=
  if iters < maxIter then runCycles body (iters + 50) maxIter (body s) else s
termination_by maxIter - iters
decreasing_by omega

/-! ## Proofs -/

theorem loopCount_eq_aux : ∀ (d it m : ℕ), m - it ≤ d → loopCount it m = (m - it + 49) / 50 := by
  intro d
  induction d with
  | zero =>
    intro it m h
    have hnot : ¬ it < m := by omega
    rw [loopCount, if_neg hnot]
    omega
  | succ d ih =>
    intro it m h
    by_cases hlt : it < m
    · rw [loopCount, if_pos hlt, ih (it + 50) m (by omega)]
      omega
    · rw [loopCount, if_neg hlt]
      omega

theorem runCycles_eq_aux : ∀ (d : ℕ) {σ : Type} (body : σ → σ) (it m : ℕ), m - it ≤ d →
    ∀ s, runCycles body it m s = body^[loopCount it m] s := by
  intro d
  induction d with
  | zero =>
    intro σ body it m h s
    have hnot : ¬ it < m := by omega
    rw [runCycles, if_neg hnot, loopCount, if_neg hnot]
    rfl
  | succ d ih =>
    intro σ body it m h s
    by_cases hlt : it < m
    · rw [runCycles, if_pos hlt, loopCount, if_pos hlt,
        ih body (it + 50) m (by omega) (body s), Function.iterate_succ_apply]
    · rw [runCycles, if_neg hlt, loopCount, if_neg hlt]
      rfl

/-- C8: for every `max_iterations > 0` the outer loop starts its counter at 0,
adds exactly 50 per cycle, and runs exactly `⌈max_iterations/50⌉` cycles; the
guard reads only the counter, so no property of the loop-carried state — in
particular no value of the captured `warnflag` and no convergence measure of
the fine field — can end the loop earlier, which the second conjunct states by
quantifying over the entire cycle body and start state. -/
theorem claim8_loop_budget (m : ℕ) (hm : 0 < m) :
    loopCount 0 m = (m + 49) / 50 ∧
    ∀ (σ : Type) (body : σ → σ) (s : σ), runCycles body 0 m s = body^[(m + 49) / 50] s := by
  have h1 : loopCount 0 m = (m + 49) / 50 := by
    have h := loopCount_eq_aux m 0 m (by omega)
    simpa using h
  refine ⟨h1, ?_⟩
  intro σ body s
  rw [runCycles_eq_aux m body 0 m (by omega) s, h1]

/-- Witness for C8 at the default `max_iterations = 1300`: 26 cycles. -/
theorem claim8_loop_budget_witness :
    loopCount 0 1300 = 26 ∧ runCycles id 0 1300 (0 : ℕ) = 0 := by
  have h := claim8_loop_budget 1300 (by norm_num)
  refine ⟨?_, ?_⟩
  · rw [h.1]
  · rw [h.2 ℕ id 0, Function.iterate_id]
    rfl

/-- C9: with exactly one grid, `model_fields` supplied and no caller-supplied
`weights_model`, the coverage-based fade is never reached (it sits inside the
`len(Grids) > 1` branch), so every model weight keeps its initialised value 1. -/
theorem claim9_single_grid_model_weights {ι : Type} (m : ℕ)
    (coverage : ℕ → ι → ℚ) (i k : ℕ) (c : ι) :
    modWeightsPass ι 1 (some m) none coverage i k c = 1 := by
  simp [modWeightsPass]

/-- C5: with exactly one grid, the observation weight array is the validity
indicator of the radar's radial-velocity mask (1 where valid, 0 where masked),
and the background weight array is its exact logical complement. -/
theorem claim5_single_radar_weights {ι : Type} (nLev : ℕ)
    (mask : ℕ → ℕ → ι → Bool) (bca : ℕ → ℕ → ι → ℚ) (minr maxr : ℚ)
    (wObs : Option (ℕ → ℕ → ι → ℚ)) (wBg : Option (ℕ → ι → ℚ)) (k : ℕ) (c : ι) :
    (weightsPass ι 1 nLev mask bca minr maxr wObs wBg).obs 0 k c
        = (if mask 0 k c then 0 else 1) ∧
    (weightsPass ι 1 nLev mask bca minr maxr wObs wBg).bg k c
        = 1 - (if mask 0 k c then 0 else 1) := by
  cases h : mask 0 k c <;> simp [weightsPass, h]

/-- The invalid-everywhere radial-velocity mask of the C4 failing input. -/
def c4mask : ℕ → ℕ → Unit → Bool := fun _ _ _ => true

/-- The BCA field of the C4 failing input: 2 radians, inside the configured
bounds `[1, 3]`, so the pair `(0, 1)` is evaluated with a satisfied bound. -/
def c4bca : ℕ → ℕ → Unit → ℚ := fun _ _ _ => 2

/-- C4: evaluation of the weight-building pass at the failing input — two
radars, one vertical level, one cell, the radar-0 observation invalid (masked)
there, the BCA bound satisfied, no caller-supplied weights.  The claim (and
spec) require background weight 1 at such a cell; the code's
`cur_array[vrs[i][k].mask] = 0` (multigrid.py:239, missing the `~` that the
single-radar branch at line 260 applies) zeroes it instead. -/
theorem claim4_bg_weight_eval :
    (weightsPass Unit 2 1 c4mask c4bca 1 3 none none).bg 0 () = 0 := by
  simp [weightsPass, pairList, pairStep, levelStep, c4mask, c4bca, List.range_succ]

theorem zip_self_eq (xs : List ℚ) : xs.zip xs = xs.map (fun x => (x, x)) := by
  induction xs with
  | nil => rfl
  | cons a xs ih => simp [ih]

theorem npAllclose_refl (xs : List ℚ) : npAllclose xs xs = true := by
  unfold npAllclose
  rw [zip_self_eq]
  simp only [beq_self_eq_true, Bool.true_and, List.all_map, List.all_eq_true,
    Function.comp_apply, decide_eq_true_eq]
  intro x hx
  obtain ⟨a, _, rfl⟩ := List.mem_map.mp hx
  show |a - a| ≤ 10 + |a| / 100000
  have hz : |a - a| = 0 := by simp
  rw [hz]
  positivity

theorem conformPair_refl (g : PyGrid) : conformPair g g :=
  ⟨npAllclose_refl _, npAllclose_refl _, npAllclose_refl _, rfl⟩

theorem checkPair_ok_iff (g prev : PyGrid) :
    checkPair g prev = .ok () ↔ conformPair g prev := by
  constructor
  · intro h
    unfold checkPair at h
    split_ifs at h with h1 h2 h3 h4
    exact ⟨by simpa using h1, by simpa using h2, by simpa using h3,
      not_ne_iff.mp h4⟩
  · intro hc
    simp [checkPair, hc.1, hc.2.1, hc.2.2.1, hc.2.2.2]

theorem checkGridsGo_ok_iff : ∀ (l : List PyGrid) (prev : PyGrid),
    checkGridsGo prev l = .ok () ↔ ∀ p ∈ (prev :: l).zip l, conformPair p.2 p.1 := by
  intro l
  induction l with
  | nil => intro prev; simp [checkGridsGo]
  | cons g rest ih =>
    intro prev
    show (match checkPair g prev with
      | .ok _ => checkGridsGo g rest
      | .error e => .error e) = .ok () ↔ _
    cases hcp : checkPair g prev with
    | ok u =>
      cases u
      rw [ih g]
      constructor
      · intro hall p hp
        rw [List.zip_cons_cons, List.mem_cons] at hp
        rcases hp with rfl | hp
        · exact (checkPair_ok_iff g prev).mp hcp
        · exact hall p hp
      · intro hall p hp
        exact hall p (by rw [List.zip_cons_cons, List.mem_cons]; right; exact hp)
    | error e =>
      constructor
      · intro h; exact absurd h (by simp)
      · intro hall
        have hc : conformPair g prev := hall (prev, g) (by simp)
        rw [(checkPair_ok_iff g prev).mpr hc] at hcp
        exact absurd hcp (by simp)

/-- C6 (amended): the conformance check is a *chain* over consecutive grids —
it passes iff every grid conforms to its predecessor (per-axis `np.allclose`
with `atol=10`, numpy's default `rtol=1e-5`, and exact origin-latitude
equality) — and a list of identical grids always passes. -/
theorem claim6_conformance_chain (gs : List PyGrid) (hne : gs ≠ []) :
    (checkGrids gs = .ok () ↔ ∀ p ∈ gs.zip gs.tail, conformPair p.2 p.1) ∧
    (∀ (g : PyGrid) (n : ℕ), checkGrids (List.replicate (n + 1) g) = .ok ()) := by
  constructor
  · obtain ⟨g, rest, rfl⟩ := List.exists_cons_of_ne_nil hne
    show checkGridsGo g (g :: rest) = .ok () ↔ _
    rw [checkGridsGo_ok_iff]
    constructor
    · intro hall p hp
      exact hall p (by rw [List.zip_cons_cons, List.mem_cons]; right; simpa using hp)
    · intro hall p hp
      rw [List.zip_cons_cons, List.mem_cons] at hp
      rcases hp with rfl | hp
      · exact conformPair_refl g
      · exact hall p (by simpa using hp)
  · intro g n
    rw [List.replicate_succ]
    show checkGridsGo g (g :: List.replicate n g) = .ok ()
    rw [checkGridsGo_ok_iff]
    intro p hp
    have h1 : p.1 = g := by
      have hm := (List.of_mem_zip hp).1
      rw [← List.replicate_succ, ← List.replicate_succ] at hm
      exact List.eq_of_mem_replicate hm
    have h2 : p.2 = g := by
      have hm := (List.of_mem_zip hp).2
      rw [← List.replicate_succ] at hm
      exact List.eq_of_mem_replicate hm
    rw [h1, h2]
    exact conformPair_refl g

/-- Witness for C6: a one-grid list passes the check. -/
theorem claim6_conformance_chain_witness :
    checkGrids [({ x := [0], y := [0], z := [0], origin_latitude := 0 } : PyGrid)]
      = .ok () := by
  have h := claim6_conformance_chain
    [({ x := [0], y := [0], z := [0], origin_latitude := 0 } : PyGrid)] (by simp)
  exact h.1.mpr (by simp)

/-- A grid at x-offset 0. -/
def gridA : PyGrid := { x := [0], y := [0], z := [0], origin_latitude := 0 }

/-- A grid at x-offset 8: within tolerance of both `gridA` and `gridC`. -/
def gridB : PyGrid := { x := [8], y := [0], z := [0], origin_latitude := 0 }

/-- A grid at x-offset 16: beyond the tolerance 10 from `gridA`. -/
def gridC : PyGrid := { x := [16], y := [0], z := [0], origin_latitude := 0 }

/-- Counterexample to C6 as stated: in the list `[gridA, gridB, gridC]` the
grids `gridA` and `gridC` differ in x by 16 > 10 (they are not `np.allclose`),
yet the check passes, because only consecutive grids are ever compared. -/
theorem claim6_conformance_chain_cex :
    checkGrids [gridA, gridB, gridC] = .ok () ∧
    npAllclose gridC.x gridA.x = false ∧ npAllclose gridA.x gridC.x = false := by
  refine ⟨?_, ?_, ?_⟩
  · show checkGridsGo gridA [gridA, gridB, gridC] = .ok ()
    rw [checkGridsGo_ok_iff]
    intro p hp
    simp only [List.zip_cons_cons, List.zip_nil_right, List.mem_cons,
      List.not_mem_nil, or_false] at hp
    have hAB : conformPair gridB gridA := by
      refine ⟨?_, npAllclose_refl _, npAllclose_refl _, rfl⟩
      simp only [gridA, gridB, npAllclose, List.zip_cons_cons, List.zip_nil_right,
        List.all_cons, List.all_nil, List.length_cons, List.length_nil,
        beq_self_eq_true, Bool.true_and, Bool.and_true, decide_eq_true_eq]
      norm_num
    have hBC : conformPair gridC gridB := by
      refine ⟨?_, npAllclose_refl _, npAllclose_refl _, rfl⟩
      simp only [gridB, gridC, npAllclose, List.zip_cons_cons, List.zip_nil_right,
        List.all_cons, List.all_nil, List.length_cons, List.length_nil,
        beq_self_eq_true, Bool.true_and, Bool.and_true, decide_eq_true_eq]
      norm_num
    rcases hp with rfl | rfl | rfl
    · exact conformPair_refl gridA
    · exact hAB
    · exact hBC
  · simp only [gridA, gridC, npAllclose, List.zip_cons_cons, List.zip_nil_right,
      List.all_cons, List.all_nil, List.length_cons, List.length_nil,
      beq_self_eq_true, Bool.true_and, Bool.and_true, decide_eq_true_eq]
    norm_num
  · simp only [gridA, gridC, npAllclose, List.zip_cons_cons, List.zip_nil_right,
      List.all_cons, List.all_nil, List.length_cons, List.length_nil,
      beq_self_eq_true, Bool.true_and, Bool.and_true, decide_eq_true_eq]
    norm_num

theorem validateSetup_ok_names (c : MgConfig) (h : validateSetup c = .ok ()) :
    c.refl_field ≠ none ∧ c.vel_name ≠ none := by
  unfold validateSetup at h
  by_cases h1 : (c.Ut = none ∨ c.Vt = none) ∧ c.Cv ≠ 0
  · rw [if_pos h1] at h
    exact absurd h (by simp)
  rw [if_neg h1] at h
  by_cases h2 : c.grids_is_list = false
  · rw [if_pos h2] at h
    exact absurd h (by simp)
  rw [if_neg h2] at h
  cases hg : checkGrids c.grids with
  | error e =>
    rw [hg] at h
    exact absurd h (by simp)
  | ok u =>
    cases u
    rw [hg] at h
    simp only [] at h
    by_cases h3 : c.u_back ≠ none ∧ c.v_back ≠ none ∧ c.z_back = none
    · rw [if_pos h3] at h
      exact absurd h (by simp)
    rw [if_neg h3] at h
    by_cases h4 : c.refl_field = none
    · rw [if_pos h4] at h
      exact absurd h (by simp)
    rw [if_neg h4] at h
    by_cases h5 : c.vel_name = none
    · rw [if_pos h5] at h
      exact absurd h (by simp)
    exact ⟨h4, h5⟩

theorem validateSetup_nameError_of (c : MgConfig)
    (h1 : ¬((c.Ut = none ∨ c.Vt = none) ∧ c.Cv ≠ 0)) (h2 : c.grids_is_list = true)
    (hg : checkGrids c.grids = .ok ())
    (h3 : ¬(c.u_back ≠ none ∧ c.v_back ≠ none ∧ c.z_back = none))
    (h45 : c.refl_field = none ∨ c.vel_name = none) :
    validateSetup c = .error .nameError := by
  unfold validateSetup
  rw [if_neg h1, if_neg (by simp [h2]), hg]
  rcases h45 with h4 | h5
  · simp [h3, h4]
  · by_cases h4 : c.refl_field = none
    · simp [h3, h4]
    · simp [h3, h4, h5]

theorem checkGrids_singleton_ok (g : PyGrid) : checkGrids [g] = .ok () := by
  show checkGridsGo g [g] = .ok ()
  rw [checkGridsGo_ok_iff]
  intro p hp
  simp only [List.zip_cons_cons, List.zip_nil_right, List.mem_cons,
    List.not_mem_nil, or_false] at hp
  rw [hp]
  exact conformPair_refl g

/-- C10 (amended): the default field-name path never resolves a name — once
the checks preceding it pass, a call with `refl_field = None` (or with
`refl_field` supplied and `vel_name = None`) reaches
`pyart.config.get_field_name(...)` (multigrid.py:113-118) and raises
`NameError`, because `pyart` is never imported (lines 1-11); consequently
every call that gets past this point supplied both names explicitly. -/
theorem claim10_pyart_name_error (c : MgConfig) :
    (validateSetup c = .ok () → c.refl_field ≠ none ∧ c.vel_name ≠ none) ∧
    (¬((c.Ut = none ∨ c.Vt = none) ∧ c.Cv ≠ 0) → c.grids_is_list = true →
      checkGrids c.grids = .ok () →
      ¬(c.u_back ≠ none ∧ c.v_back ≠ none ∧ c.z_back = none) →
      (c.refl_field = none ∨ c.vel_name = none) →
      validateSetup c = .error .nameError) :=
  ⟨validateSetup_ok_names c, validateSetup_nameError_of c⟩

/-- Witness for C10: with a valid single-grid list and nothing else supplied,
omitting `refl_field` yields the `NameError`. -/
theorem claim10_pyart_name_error_witness :
    validateSetup
      { grids_is_list := true
        grids := [{ x := [0], y := [0], z := [0], origin_latitude := 0 }]
        Ut := none, Vt := none, Cv := 0, Cmod := 0
        u_back := none, v_back := none, z_back := none
        refl_field := none, vel_name := some "corrected_velocity"
        model_fields := none } = .error .nameError := by
  apply (claim10_pyart_name_error _).2
  · simp
  · rfl
  · exact checkGrids_singleton_ok _
  · simp
  · exact Or.inl rfl

/-- Counterexample to C10 as stated: a call with `refl_field = None` whose grid
argument is not a list raises the list `ValueError` first, not `NameError`. -/
theorem claim10_pyart_name_error_cex :
    validateSetup
      { grids_is_list := false, grids := [], Ut := none, Vt := none
        Cv := 0, Cmod := 0, u_back := none, v_back := none, z_back := none
        refl_field := none, vel_name := some "corrected_velocity"
        model_fields := none } = .error (.valueError "Grids has to be a list!") ∧
    PyErr.valueError "Grids has to be a list!" ≠ PyErr.nameError := by
  constructor
  · unfold validateSetup
    norm_num
  · simp

/-- C7 (amended): a `ValueError` is raised before any wind computation whenever
the grid argument is not a list, whenever `Cv ≠ 0` with `Ut` or `Vt` absent,
and — provided the checks that precede it succeed, in particular both field
names being supplied (otherwise the `pyart` `NameError` preempts it) — whenever
`Cmod ≠ 0` with `model_fields` absent. -/
theorem claim7_config_value_errors (c : MgConfig)
    (h : c.grids_is_list = false ∨
      (c.Cv ≠ 0 ∧ (c.Ut = none ∨ c.Vt = none)) ∨
      (c.Cmod ≠ 0 ∧ c.model_fields = none ∧ c.grids_is_list = true ∧
        checkGrids c.grids = .ok () ∧
        ¬(c.u_back ≠ none ∧ c.v_back ≠ none ∧ c.z_back = none) ∧
        c.refl_field ≠ none ∧ c.vel_name ≠ none)) :
    ∃ msg, validateSetup c = .error (.valueError msg) := by
  rcases h with h | h | h
  · by_cases hv : (c.Ut = none ∨ c.Vt = none) ∧ c.Cv ≠ 0
    · exact ⟨"Ut and Vt cannot be None if vertical vorticity constraint is enabled!",
        by rw [validateSetup, if_pos hv]⟩
    · exact ⟨"Grids has to be a list!", by rw [validateSetup, if_neg hv, if_pos h]⟩
  · exact ⟨"Ut and Vt cannot be None if vertical vorticity constraint is enabled!",
      by rw [validateSetup, if_pos ⟨h.2, h.1⟩]⟩
  · obtain ⟨hcm, hmf, hlist, hg, hsound, hrefl, hvel⟩ := h
    by_cases hv : (c.Ut = none ∨ c.Vt = none) ∧ c.Cv ≠ 0
    · exact ⟨"Ut and Vt cannot be None if vertical vorticity constraint is enabled!",
        by rw [validateSetup, if_pos hv]⟩
    · refine ⟨"Cmod must be zero if model fields are not specified!", ?_⟩
      rw [validateSetup, if_neg hv, if_neg (by simp [hlist]), hg]
      simp only [if_neg hsound, if_neg hrefl, if_neg hvel]
      rw [if_pos (show c.model_fields = none ∧ c.Cmod ≠ 0 from ⟨hmf, hcm⟩)]

/-- Witness for C7 through the vorticity branch: `Cv = 1` with no storm
motion supplied raises a `ValueError`. -/
theorem claim7_config_value_errors_witness :
    ∃ msg, validateSetup
      { grids_is_list := true
        grids := [{ x := [0], y := [0], z := [0], origin_latitude := 0 }]
        Ut := none, Vt := none, Cv := 1, Cmod := 0
        u_back := none, v_back := none, z_back := none
        refl_field := some "reflectivity", vel_name := some "corrected_velocity"
        model_fields := none } = .error (.valueError msg) := by
  apply claim7_config_value_errors
  right; left
  exact ⟨by norm_num, Or.inl rfl⟩

/-- Counterexample to C7 as stated: with `Cmod = 1` and `model_fields = None`
but `refl_field` also omitted, the call raises the `pyart` `NameError`, not a
`ValueError`. -/
theorem claim7_config_value_errors_cex :
    validateSetup
      { grids_is_list := true
        grids := [{ x := [0], y := [0], z := [0], origin_latitude := 0 }]
        Ut := none, Vt := none, Cv := 0, Cmod := 1
        u_back := none, v_back := none, z_back := none
        refl_field := none, vel_name := some "corrected_velocity"
        model_fields := none } = .error .nameError ∧
    ∀ msg, PyErr.nameError ≠ PyErr.valueError msg := by
  constructor
  · apply validateSetup_nameError_of
    · simp
    · rfl
    · exact checkGrids_singleton_ok _
    · simp
    · exact Or.inl rfl
  · intro msg
    simp

@[simp] theorem addF_some_some (a b : ℚ) : addF (some a) (some b) = some (a + b) := rfl

@[simp] theorem addF_none_left (x : F) : addF none x = none := by cases x <;> rfl

@[simp] theorem addF_none_right (x : F) : addF x none = none := by cases x <;> rfl

@[simp] theorem subF_some_some (a b : ℚ) : subF (some a) (some b) = some (a - b) := rfl

@[simp] theorem subF_none_left (x : F) : subF none x = none := by cases x <;> rfl

@[simp] theorem subF_none_right (x : F) : subF x none = none := by cases x <;> rfl

@[simp] theorem mulF_some_some (a b : ℚ) : mulF (some a) (some b) = some (a * b) := rfl

@[simp] theorem mulF_none_left (x : F) : mulF none x = none := by cases x <;> rfl

@[simp] theorem mulF_none_right (x : F) : mulF x none = none := by cases x <;> rfl

theorem maskSelect_finites_map_sum (f : ℚ → ℚ) : ∀ (w r : List F),
    ((maskSelect r (finitesMask w r)).map f).sum =
      ((w.zip r).filterMap (fun p =>
        match p.1, p.2 with
        | some _, some b => some (f b)
        | _, _ => none)).sum := by
  intro w
  induction w with
  | nil => intro r; simp [maskSelect, finitesMask]
  | cons a w ih =>
    intro r
    cases r with
    | nil => simp [maskSelect, finitesMask]
    | cons b r =>
      cases a <;> cases b <;>
        simp [maskSelect, finitesMask, List.zip_cons_cons, ← ih r, maskSelect]

theorem zipWith_subF_getD : ∀ (g r : List F) (i : ℕ),
    (List.zipWith (fun gv rv => subF gv (mulF (some ((1:ℚ)/1000)) rv)) g r).getD i none
      = subF (g.getD i none) (mulF (some ((1:ℚ)/1000)) (r.getD i none)) := by
  intro g
  induction g with
  | nil => intro r i; cases r <;> simp [List.getD]
  | cons gh gt ih =>
    intro r i
    cases r with
    | nil => simp [List.getD]
    | cons rh rt =>
      cases i with
      | zero => simp
      | succ i => simpa using ih rt i

theorem finitesMask_replicate_zeros (n : ℕ) :
    finitesMask (List.replicate n (some (0:ℚ))) (List.replicate n (some 0))
      = List.replicate n true := by
  induction n with
  | zero => rfl
  | succ n ih =>
    simp only [List.replicate_succ]
    simp [finitesMask]

theorem maskSelect_replicate_zeros (n : ℕ) :
    maskSelect (List.replicate n (some (0:ℚ))) (List.replicate n true)
      = List.replicate n 0 := by
  induction n with
  | zero => rfl
  | succ n ih =>
    simp only [List.replicate_succ]
    simp [maskSelect]

theorem J_coarseSq_zeros (J : List F → ℚ) (n : ℕ) :
    J_coarseSq J (List.replicate n (some 0)) (List.replicate n (some 0))
      = n * (J (List.replicate n (some 0))) ^ 2 := by
  unfold J_coarseSq
  rw [finitesMask_replicate_zeros, maskSelect_replicate_zeros, List.map_replicate,
    List.sum_replicate, nsmul_eq_mul]
  norm_num

/-- C2 (amended): the cost adapter returns the Euclidean norm of the broadcast
scalar `J_coarse(winds) − 0.001·residual` restricted to the entries where both
winds and residual are finite; the gradient adapter returns
`∇J_coarse(winds) − 0.001·residual` elementwise with no finiteness
restriction; and at `winds = 0, residual = 0` the cost adapter returns
`√(n·J_coarse(0)²)`, which vanishes exactly when the external cost does at the
zero wind vector (or the vector is empty) — not unconditionally. -/
theorem claim2_coarse_adapters (J : List F → ℚ) (gradJ : List F → List F)
    (w r : List F) (n : ℕ) :
    J_coarse J w r = Real.sqrt ((((w.zip r).filterMap (fun p =>
        match p.1, p.2 with
        | some _, some b => some ((J w - (1/1000) * b) ^ 2)
        | _, _ => none)).sum : ℚ) : ℝ) ∧
    (∀ i : ℕ, (grad_coarse gradJ w r).getD i none
        = subF ((gradJ w).getD i none) (mulF (some (1/1000)) (r.getD i none))) ∧
    J_coarse J (List.replicate n (some 0)) (List.replicate n (some 0))
      = Real.sqrt ((n : ℝ) * ((J (List.replicate n (some 0)) : ℚ) : ℝ) ^ 2) ∧
    (J_coarse J (List.replicate n (some 0)) (List.replicate n (some 0)) = 0
      ↔ n = 0 ∨ J (List.replicate n (some 0)) = 0) := by
  have h3 : J_coarse J (List.replicate n (some 0)) (List.replicate n (some 0))
      = Real.sqrt ((n : ℝ) * ((J (List.replicate n (some 0)) : ℚ) : ℝ) ^ 2) := by
    rw [J_coarse, J_coarseSq_zeros]
    push_cast
    rfl
  refine ⟨?_, ?_, h3, ?_⟩
  · rw [J_coarse]
    unfold J_coarseSq
    rw [maskSelect_finites_map_sum (fun ri => (J w - (1/1000) * ri) ^ 2) w r]
  · intro i
    unfold grad_coarse
    exact zipWith_subF_getD (gradJ w) r i
  · rw [h3, Real.sqrt_eq_zero (by positivity)]
    constructor
    · intro h
      rcases mul_eq_zero.mp h with h | h
      · left; exact_mod_cast h
      · right
        have h2 := (pow_eq_zero_iff two_ne_zero).mp h
        exact_mod_cast h2
    · rintro (h | h)
      · rw [h]; norm_num
      · rw [h]; norm_num

/-- Counterexample to C2 as stated: with an (admissible, finite-valued)
external cost returning 1, the cost adapter at `winds = [0], residual = [0]`
returns `√((1 − 0.001·0)²) = 1`, not 0. -/
theorem claim2_coarse_adapters_cex :
    J_coarse (fun _ => 1) [some 0] [some 0] = 1 ∧ (1 : ℝ) ≠ 0 := by
  constructor
  · rw [J_coarse]
    have h : J_coarseSq (fun _ => (1:ℚ)) [some 0] [some 0] = 1 := by
      unfold J_coarseSq maskSelect finitesMask
      norm_num [List.filterMap_cons]
    rw [h]
    norm_num
  · norm_num

/-- C3 (amended): interpolation with `fill_value=None` never turns an
out-of-bounds query into NaN — with finite source data every query (inside or
outside the bounds) returns a finite, linearly extrapolated value, so a NaN
result can only come from NaN source data.  Restricted fields re-mask such NaNs
as invalid; but where the prolonged correction is NaN, the in-place `+=` adds
the raw NaN and the fine wind entry becomes NaN (a finite correction is added
normally) — the NaN is propagated, not a zero contribution. -/
theorem claim3_no_nan_extrapolation (zs ys xs : List ℚ) (v : Field)
    (hv : ∀ i j k, v i j k ≠ none) (pz py px : ℚ) :
    (interp3 zs ys xs v pz py px).isSome = true ∧
    (∀ w : F, inplaceAddRaw w none = none) ∧
    (∀ a b : ℚ, inplaceAddRaw (some a) (some b) = some (a + b)) ∧
    (∀ (cond src : Field) (i j k : ℕ), cond i j k = none → remaskBy cond src i j k = none) := by
  refine ⟨?_, fun w => by simp [inplaceAddRaw], fun a b => rfl,
    fun cond src i j k hc => by simp [remaskBy, hc]⟩
  unfold interp3
  rcases h1 : v (cellIdx zs pz) (cellIdx ys py) (cellIdx xs px) with _ | a1
  · exact absurd h1 (hv _ _ _)
  rcases h2 : v (cellIdx zs pz) (cellIdx ys py) (cellIdx xs px + 1) with _ | a2
  · exact absurd h2 (hv _ _ _)
  rcases h3 : v (cellIdx zs pz) (cellIdx ys py + 1) (cellIdx xs px) with _ | a3
  · exact absurd h3 (hv _ _ _)
  rcases h4 : v (cellIdx zs pz) (cellIdx ys py + 1) (cellIdx xs px + 1) with _ | a4
  · exact absurd h4 (hv _ _ _)
  rcases h5 : v (cellIdx zs pz + 1) (cellIdx ys py) (cellIdx xs px) with _ | a5
  · exact absurd h5 (hv _ _ _)
  rcases h6 : v (cellIdx zs pz + 1) (cellIdx ys py) (cellIdx xs px + 1) with _ | a6
  · exact absurd h6 (hv _ _ _)
  rcases h7 : v (cellIdx zs pz + 1) (cellIdx ys py + 1) (cellIdx xs px) with _ | a7
  · exact absurd h7 (hv _ _ _)
  rcases h8 : v (cellIdx zs pz + 1) (cellIdx ys py + 1) (cellIdx xs px + 1) with _ | a8
  · exact absurd h8 (hv _ _ _)
  simp [h1, h2, h3, h4, h5, h6, h7, h8]

/-- Witness for C3 on an out-of-bounds query over finite data. -/
theorem claim3_no_nan_extrapolation_witness :
    (interp3 [0, 1] [0, 1] [0, 1] (fun _ _ _ => some 1) 5 0 0).isSome = true ∧
    (∀ w : F, inplaceAddRaw w none = none) ∧
    (∀ a b : ℚ, inplaceAddRaw (some a) (some b) = some (a + b)) ∧
    (∀ (cond src : Field) (i j k : ℕ), cond i j k = none →
      remaskBy cond src i j k = none) :=
  claim3_no_nan_extrapolation [0, 1] [0, 1] [0, 1] (fun _ _ _ => some 1)
    (fun _ _ _ => by simp) 5 0 0

/-- The source field of the C3 counterexample: 0 on the lower z-plane, 10 on
the upper one. -/
def c3field : Field := fun i _ _ => some (10 * (i : ℚ))

/-- Counterexample to C3 as stated: the query `z = 2` lies outside the source
grid bounds `[0, 1]`, yet the interpolation yields `some 20` — the linear
extrapolation of the values 0 and 10, a value outside their range — not NaN;
and a NaN prolonged-correction entry added in place turns a finite wind entry
into NaN instead of leaving it at its value (no zero contribution). -/
theorem claim3_no_nan_extrapolation_cex :
    interp3 [0, 1] [0, 1] [0, 1] c3field 2 0 0 = some 20 ∧
    interp3 [0, 1] [0, 1] [0, 1] c3field 2 0 0 ≠ none ∧
    inplaceAddRaw (some 0) none = none ∧ (none : F) ≠ some (0 : ℚ) ∧
    (∀ t ∈ ([0, 1] : List ℚ), t < 2) := by
  have hval : interp3 [0, 1] [0, 1] [0, 1] c3field 2 0 0 = some 20 := by
    have hcell2 : cellIdx [0, 1] 2 = 0 := by
      simp [cellIdx, List.countP, List.countP.go]
    have hcell0 : cellIdx [0, 1] 0 = 0 := by
      simp [cellIdx, List.countP, List.countP.go]
    have hd2 : normDist [0, 1] 2 = 2 := by
      rw [normDist, hcell2]
      simp [gridAt]
    have hd0 : normDist [0, 1] 0 = 0 := by
      rw [normDist, hcell0]
      simp [gridAt]
    rw [interp3]
    simp only [hcell2, hcell0, hd2, hd0, c3field]
    norm_num
  refine ⟨hval, by rw [hval]; simp, by simp [inplaceAddRaw], by simp, ?_⟩
  intro t ht
  rcases (by simpa using ht : t = 0 ∨ t = 1) with rfl | rfl <;> norm_num

theorem interp3_const (zs ys xs : List ℚ) (q p1 p2 p3 : ℚ) (v : Field)
    (hv : ∀ i j k, v i j k = some q) :
    interp3 zs ys xs v p1 p2 p3 = some q := by
  unfold interp3
  simp only [hv]
  congr 1
  ring

theorem relaxN_fst (gradJ : W → W) : ∀ (n : ℕ) (w g : W),
    (relaxN gradJ n (w, g)).1 = (descentStep gradJ)^[n] w := by
  intro n
  induction n with
  | zero => intro w g; rfl
  | succ n ih =>
    intro w g
    show (relaxN gradJ n (relaxIter gradJ (w, g))).1 = _
    rw [Function.iterate_succ_apply]
    exact ih (subW w (gradJ w)) (gradJ w)

theorem relaxN_snd (gradJ : W → W) : ∀ (n : ℕ) (w g : W),
    (relaxN gradJ (n + 1) (w, g)).2 = gradJ ((descentStep gradJ)^[n] w) := by
  intro n
  induction n with
  | zero => intro w g; rfl
  | succ n ih =>
    intro w g
    show (relaxN gradJ (n + 1) (relaxIter gradJ (w, g))).2 = _
    rw [Function.iterate_succ_apply]
    exact ih (subW w (gradJ w)) (gradJ w)

/-- C1 (amended): each cycle performs exactly 5 unit-step steepest-descent
iterations (the relaxed field is the 5th iterate of `w ↦ w − ∇J(w)`), retains
the gradient evaluated at the 4th iterate — the loop's final gradient — as the
fine residual, and ends with the fine wind field equal to the *pre-relaxation*
field plus the prolonged coarse correction added raw in place; the
post-relaxation field influences the result only as the coarse-solve input. -/
theorem claim1_cycle_structure (zf yf xf : List ℚ) (gradJ : W → W)
    (solve : W → W → W) (winds : W) :
    mgCycle zf yf xf gradJ solve winds
      = (fun comp i j k => inplaceAddRaw (winds comp i j k)
          (prolongedCorrection zf yf xf gradJ solve winds comp i j k)) ∧
    relaxedWinds gradJ winds = (descentStep gradJ)^[5] winds ∧
    fineResidual gradJ winds = gradJ ((descentStep gradJ)^[4] winds) := by
  refine ⟨rfl, ?_, ?_⟩
  · exact relaxN_fst gradJ 5 winds infW
  · exact relaxN_snd gradJ 4 winds infW

/-- The fine grid axes of the C1 counterexample: 4 nodes per axis, so the
coarse axes are the 2-node midpoint grids. -/
def ax4 : List ℚ := [0, 1, 2, 3]

/-- The external fine-grid gradient of the C1 counterexample: constantly 1. -/
def c1gradJ : W → W := fun _ => fun _ _ _ _ => some 1

/-- The external coarse solver of the C1 counterexample: it returns its start
point unchanged (a fixed point of the optimisation), so the coarse correction
is exactly zero. -/
def c1solve : W → W → W := fun wc _ => wc

/-- The initial wind field of the C1 counterexample: constantly 0. -/
def c1winds : W := fun _ _ _ _ => some 0

theorem c1_relaxed_value (comp : Fin 3) (i j k : ℕ) :
    relaxedWinds c1gradJ c1winds comp i j k = some (-5) := by
  show (relaxN c1gradJ 5 (c1winds, infW)).1 comp i j k = some (-5)
  simp only [relaxN, relaxIter, subW, c1gradJ, c1winds]
  norm_num

theorem c1_coarse_input_value (comp : Fin 3) (i j k : ℕ) :
    coarseInput ax4 ax4 ax4 c1gradJ c1winds comp i j k = some (-5) := by
  unfold coarseInput restrictW restrictField
  exact interp3_const _ _ _ _ _ _ _ _ (fun a b c => c1_relaxed_value comp a b c)

theorem c1_correction_value (comp : Fin 3) (i j k : ℕ) :
    subF (c1solve (coarseInput ax4 ax4 ax4 c1gradJ c1winds)
        (coarseResidual ax4 ax4 ax4 c1gradJ c1winds) comp i j k)
      (coarseInput ax4 ax4 ax4 c1gradJ c1winds comp i j k) = some 0 := by
  show subF (coarseInput ax4 ax4 ax4 c1gradJ c1winds comp i j k)
    (coarseInput ax4 ax4 ax4 c1gradJ c1winds comp i j k) = some 0
  rw [c1_coarse_input_value]
  norm_num

theorem c1_prolonged_value (comp : Fin 3) (i j k : ℕ) :
    prolongedCorrection ax4 ax4 ax4 c1gradJ c1solve c1winds comp i j k = some 0 := by
  unfold prolongedCorrection prolongField
  exact interp3_const _ _ _ 0 _ _ _ _ (fun a b c => c1_correction_value comp a b c)

/-- Counterexample to C1 as stated: with the constant unit gradient, the zero
initial field and a coarse solver returning its start point (zero correction),
the cycle leaves the wind field at 0 — the pre-relaxation value — whereas the
claimed post-relaxation-plus-correction field is −5 after the five descent
steps. -/
theorem claim1_cycle_structure_cex :
    mgCycle ax4 ax4 ax4 c1gradJ c1solve c1winds 0 0 0 0 = some 0 ∧
    claimedCycleResult ax4 ax4 ax4 c1gradJ c1solve c1winds 0 0 0 0 = some (-5) ∧
    some (0 : ℚ) ≠ some (-5 : ℚ) := by
  refine ⟨?_, ?_, by norm_num⟩
  · show inplaceAddRaw (c1winds 0 0 0 0)
      (prolongedCorrection ax4 ax4 ax4 c1gradJ c1solve c1winds 0 0 0 0) = some 0
    rw [c1_prolonged_value]
    simp [inplaceAddRaw, c1winds]
  · show inplaceAddRaw (relaxedWinds c1gradJ c1winds 0 0 0 0)
      (prolongedCorrection ax4 ax4 ax4 c1gradJ c1solve c1winds 0 0 0 0) = some (-5)
    rw [c1_prolonged_value, c1_relaxed_value]
    simp [inplaceAddRaw]

end PyDDA
